import Mathlib

/-!
Shallow embedding of `src/sample_grabber.c` (piksi_sample_grabber).

The program streams raw bytes from an FTDI device, decodes each byte into
two signed 3-bit samples through a fixed lookup table, pushes the decoded
bytes into a pipe, and a dedicated thread pops slices from the pipe and
writes them to the output file.  The embedding models the observable state
touched by `readCallback`, `file_writer`, `sigintHandler` and `main`'s
argument handling, with the session as a fold of interleaved events over
that state.
-/

namespace SampleGrabber

/-- `#define NUM_FLUSH_BYTES 50000` (src line 45). -/
def NUM_FLUSH_BYTES : Nat := 50000

/-- `#define SAMPLES_PER_BYTE 2` (src line 46). -/
def SAMPLES_PER_BYTE : Nat := 2

/-- `#define WRITE_SLICE_SIZE 50` (src line 48). -/
def WRITE_SLICE_SIZE : Nat := 50

/-- `static const char mapping[8] = {1, 3, 5, 7, -1, -3, -5, -7};` (src line 58). -/
def mapping : List Int := [1, 3, 5, 7, -1, -3, -5, -7]

/-- `#define FPGA_FIFO_ERROR_CHECK(byte) (!(byte & 0x01))` (src line 52):
in C, `!(x)` is true exactly when `x == 0`. -/
def FPGA_FIFO_ERROR_CHECK (b : Nat) : Bool := b &&& 0x01 == 0

/-- `conv_buf[ci*2+0] = mapping[(buffer[ci] >> 5) & 0x07];` (src line 134). -/
def convSample0 (b : Nat) : Int := mapping.getD ((b >>> 5) &&& 0x07) 0

/-- `conv_buf[ci*2+1] = mapping[(buffer[ci] >> 2) & 0x07];` (src line 136). -/
def convSample1 (b : Nat) : Int := mapping.getD ((b >>> 2) &&& 0x07) 0

/-- The per-byte loop of `readCallback` (src lines 124-137), over the block
suffix starting at index `ci`, with `saved` the value of `total_bytes_saved`.
Returns `(conv_buf contents, the "num samples taken" values printed on FIFO
errors, whether some byte set exitRequested)`. -/
def decodeLoop : Nat → Nat → List Nat → List Int × List Nat × Bool
  | _, _, [] => ([], [], false)
  | saved, ci, b :: rest =>
    let tail := decodeLoop saved (ci + 1) rest
    let errHere := FPGA_FIFO_ERROR_CHECK b
    ([convSample0 b, convSample1 b] ++ tail.1,
     (if errHere then [saved + ci] else []) ++ tail.2.1,
     (errHere || tail.2.2))

/-- The shared observable state of a session: the globals of the C file
(`total_bytes_saved`, `exitRequested`, `n_err`), `readCallback`'s static
`total_num_bytes_received`, the contents of the sample pipe, and logs of the
externally visible effects (segments pushed, error reports printed, dropout
counts printed by the progress report, bytes written to the output file, and
whether the file-writing thread has left its loop). -/
structure GrabberState where
  total_num_bytes_received : Nat
  total_bytes_saved : Nat
  exitRequested : Bool
  n_err : Nat
  pipeData : List Int
  pushedSegments : List (List Int)
  reports : List Nat
  dropoutsReported : List Nat
  written : List Int
  writerDone : Bool
deriving Repr, DecidableEq

/-- `readCallback` (src lines 97-154) on one delivered block.  `hasFile`
is whether `outputFile` is non-null, `hasProgress` whether the `progress`
pointer is non-null.  Returns the new state, the `conv_buf` contents the
call produced (empty when the decode loop did not run), and the C return
value (`exitRequested ? 1 : 0`). -/
def readCallback (hasFile hasProgress : Bool) (s : GrabberState) (buffer : List Nat) :
    GrabberState × List Int × Nat :=
  let r :=
    if buffer.length ≠ 0 then
      if NUM_FLUSH_BYTES ≤ s.total_num_bytes_received then
        if hasFile then
          let d := decodeLoop s.total_bytes_saved 0 buffer
          ({ s with
              exitRequested := s.exitRequested || d.2.2,
              reports := s.reports ++ d.2.1,
              pipeData := s.pipeData ++ d.1,
              pushedSegments := s.pushedSegments ++ [d.1],
              total_bytes_saved := s.total_bytes_saved + buffer.length,
              total_num_bytes_received := s.total_num_bytes_received + buffer.length },
           d.1)
        else
          ({ s with total_num_bytes_received := s.total_num_bytes_received + buffer.length }, [])
      else
        ({ s with total_num_bytes_received := s.total_num_bytes_received + buffer.length }, [])
    else (s, [])
  let s2 :=
    if hasProgress then
      { r.1 with dropoutsReported := r.1.dropoutsReported ++ [r.1.n_err] }
    else r.1
  (s2, r.2, if s2.exitRequested then 1 else 0)

/-- Modelled from the spec: `pipe_pop` of the pipe library, whose
implementation is not under src/ (only `pipe/pipe.h` is included).  Spec
4.3: "`pop(max_len)`: blocks until at least one byte is available or
shutdown is signaled; on shutdown with no data pending, returns an empty
result (not an error) ... FIFO ordering is guaranteed."  `none` stands for
the call blocking (no step is taken). -/
def pipe_pop (shutdown : Bool) (pipeData : List Int) (maxLen : Nat) :
    Option (List Int × List Int) :=
  if pipeData.length ≠ 0 then some (pipeData.take maxLen, pipeData.drop maxLen)
  else if shutdown then some ([], [])
  else none

/-- One iteration of `file_writer`'s loop (src lines 156-170): check
`exitRequested`; if clear, pop up to `WRITE_SLICE_SIZE` bytes and, when at
least one byte came back, `fwrite` it.  `writeOk` is whether `fwrite`
returned 1; on any other return the thread sets `exitRequested`.  A state
with `writerDone` already set is left unchanged (the thread has returned). -/
def writerStep (writeOk : Bool) (s : GrabberState) : GrabberState :=
  if s.writerDone then s
  else if s.exitRequested then { s with writerDone := true }
  else
    match pipe_pop s.exitRequested s.pipeData WRITE_SLICE_SIZE with
    | none => s
    | some (buf, rest) =>
      if 0 < buf.length then
        if writeOk then { s with pipeData := rest, written := s.written ++ buf }
        else { s with pipeData := rest, exitRequested := true }
      else { s with pipeData := rest }

/-- The events that touch the shared state: the SIGINT handler
(src lines 75-79), one `readCallback` invocation, one `file_writer`
iteration. -/
inductive GrabberEvent where
  | sigint : GrabberEvent
  | callback (hasFile hasProgress : Bool) (buffer : List Nat) : GrabberEvent
  | writer (writeOk : Bool) : GrabberEvent
deriving Repr

/-- The effect of one event on the shared state.  `sigintHandler` only
stores 1 into `exitRequested` (src line 78). -/
def step (s : GrabberState) (e : GrabberEvent) : GrabberState :=
  match e with
  | GrabberEvent.sigint => { s with exitRequested := true }
  | GrabberEvent.callback hf hp buf => (readCallback hf hp s buf).1
  | GrabberEvent.writer ok => writerStep ok s

/-- Initial state: all counters 0, `exitRequested = 0` (src lines 54, 62,
96, 105, 178), pipe empty, no effects yet. -/
def initState : GrabberState :=
  { total_num_bytes_received := 0
    total_bytes_saved := 0
    exitRequested := false
    n_err := 0
    pipeData := []
    pushedSegments := []
    reports := []
    dropoutsReported := []
    written := []
    writerDone := false }

/-- A session: interleaved events folded over the initial state. -/
def runSession (events : List GrabberEvent) : GrabberState :=
  events.foldl step initState

/-- `main`'s handling of positional arguments (src lines 193-200): with no
option flags, `optind = 1`, so `optind == argc - 1` means exactly one
positional argument (the dump file) and `optind < argc` otherwise means too
many, calling `usage()` which does `exit(1)` — before `ftdi_new` is ever
reached.  `Except.error c` is the process exiting with code `c` before any
device interaction; `Except.ok outfile` is proceeding to device setup. -/
def parsePositional (args : List String) : Except Nat (Option String) :=
  match args with
  | [] => Except.ok none
  | [f] => Except.ok (some f)
  | _ => Except.error 1

/-- The session used to exhibit the loss of accepted data at shutdown:
warm up, push one decoded block, receive SIGINT, then one writer
iteration. -/
def lossTrace : List GrabberEvent :=
  [GrabberEvent.callback true false (List.replicate 50000 1),
   GrabberEvent.callback true false [3],
   GrabberEvent.sigint,
   GrabberEvent.writer true]

/-- The session used to exhibit a threshold crossing in the middle of a
block: 49999 bytes, then a 2-byte block whose second byte is global byte
number 50001. -/
def warmupTrace : List GrabberEvent :=
  [GrabberEvent.callback true false (List.replicate 49999 1),
   GrabberEvent.callback true false [3, 3]]

/-- A warmed-up state — `NUM_FLUSH_BYTES` bytes already observed, nothing
else happened — as reached by a session run with no output file. -/
def statsOnlyState : GrabberState :=
  { initState with total_num_bytes_received := NUM_FLUSH_BYTES }

/-! ### Helper lemmas about the decode loop -/

theorem decodeLoop_samples (saved ci : Nat) (buf : List Nat) :
    (decodeLoop saved ci buf).1 = buf.flatMap (fun b => [convSample0 b, convSample1 b]) := by
  induction buf generalizing ci with
  | nil => rfl
  | cons b rest ih => simp [decodeLoop, ih]

theorem decodeLoop_length (saved ci : Nat) (buf : List Nat) :
    (decodeLoop saved ci buf).1.length = 2 * buf.length := by
  induction buf generalizing ci with
  | nil => rfl
  | cons b rest ih =>
    simp only [decodeLoop, List.length_cons, List.length_append, List.length_nil, ih]
    ring

theorem decodeLoop_err (saved ci : Nat) (buf : List Nat) :
    (decodeLoop saved ci buf).2.2 = buf.any (fun b => FPGA_FIFO_ERROR_CHECK b) := by
  induction buf generalizing ci with
  | nil => rfl
  | cons b rest ih => simp [decodeLoop, ih]

theorem decodeLoop_report_mem (saved ci : Nat) (buf : List Nat) (i : Nat)
    (hi : i < buf.length) (he : FPGA_FIFO_ERROR_CHECK (buf.getD i 0) = true) :
    (saved + (ci + i)) ∈ (decodeLoop saved ci buf).2.1 := by
  induction buf generalizing ci i with
  | nil => simp at hi
  | cons b rest ih =>
    cases i with
    | zero =>
      simp only [List.getD_cons_zero] at he
      simp [decodeLoop, he]
    | succ j =>
      simp only [List.length_cons, Nat.succ_lt_succ_iff] at hi
      simp only [List.getD_cons_succ] at he
      have h := ih (ci + 1) j hi he
      simp only [decodeLoop, List.mem_append, List.mem_ite_nil_left]
      right
      have : saved + (ci + 1 + j) = saved + (ci + (j + 1)) := by ring_nf
      rw [← this]
      exact h

theorem decodeLoop_get (saved ci : Nat) (buf : List Nat) (i : Nat)
    (hi : i < buf.length) :
    (decodeLoop saved ci buf).1.get? (2 * i) = some (convSample0 (buf.getD i 0)) ∧
    (decodeLoop saved ci buf).1.get? (2 * i + 1) = some (convSample1 (buf.getD i 0)) := by
  induction buf generalizing ci i with
  | nil => simp at hi
  | cons b rest ih =>
    cases i with
    | zero => simp [decodeLoop]
    | succ j =>
      simp only [List.length_cons, Nat.succ_lt_succ_iff] at hi
      have h := ih (ci + 1) j hi
      constructor
      · have : 2 * (j + 1) = (2 * j) + 2 := by ring
        simp only [decodeLoop, this, List.getD_cons_succ]
        simpa using h.1
      · have : 2 * (j + 1) + 1 = (2 * j + 1) + 2 := by ring
        simp only [decodeLoop, this, List.getD_cons_succ]
        simpa using h.2

/-! ### Helper lemmas about `readCallback`, `writerStep` and `step` -/

theorem readCallback_exit_mono (hf hp : Bool) (s : GrabberState) (buf : List Nat)
    (h : s.exitRequested = true) :
    (readCallback hf hp s buf).1.exitRequested = true := by
  unfold readCallback
  cases hp <;> split_ifs <;> simp [h]

theorem readCallback_nerr (hf hp : Bool) (s : GrabberState) (buf : List Nat) :
    (readCallback hf hp s buf).1.n_err = s.n_err := by
  unfold readCallback
  cases hp <;> split_ifs <;> simp

theorem readCallback_dropouts (hf hp : Bool) (s : GrabberState) (buf : List Nat) :
    (readCallback hf hp s buf).1.dropoutsReported
      = s.dropoutsReported ++ (if hp then [s.n_err] else []) := by
  unfold readCallback
  cases hp <;> split_ifs <;> simp

theorem writerStep_done (ok : Bool) (s : GrabberState) (h : s.writerDone = true) :
    writerStep ok s = s := by
  simp [writerStep, h]

theorem writerStep_exit (ok : Bool) (s : GrabberState) (h1 : s.writerDone = false)
    (h2 : s.exitRequested = true) :
    writerStep ok s = { s with writerDone := true } := by
  simp [writerStep, h1, h2]

theorem writerStep_exit_mono (ok : Bool) (s : GrabberState) (h : s.exitRequested = true) :
    (writerStep ok s).exitRequested = true := by
  unfold writerStep
  split_ifs <;> simp [h]

theorem writerStep_nerr_dropouts (ok : Bool) (s : GrabberState) :
    (writerStep ok s).n_err = s.n_err ∧
    (writerStep ok s).dropoutsReported = s.dropoutsReported := by
  unfold writerStep
  cases hpop : pipe_pop s.exitRequested s.pipeData WRITE_SLICE_SIZE with
  | none => split_ifs <;> simp
  | some p =>
    obtain ⟨buf, rest⟩ := p
    simp only
    split_ifs <;> simp

theorem step_exit_mono (s : GrabberState) (e : GrabberEvent) (h : s.exitRequested = true) :
    (step s e).exitRequested = true := by
  cases e with
  | sigint => rfl
  | callback hf hp buf => exact readCallback_exit_mono hf hp s buf h
  | writer ok => exact writerStep_exit_mono ok s h

theorem foldl_exit_mono (evs : List GrabberEvent) :
    ∀ s : GrabberState, s.exitRequested = true → (evs.foldl step s).exitRequested = true := by
  induction evs with
  | nil => intro s h; exact h
  | cons e rest ih => intro s h; exact ih (step s e) (step_exit_mono s e h)

/-- After shutdown is observed, further writer iterations change neither
`written` nor `pipeData` nor the flag. -/
theorem writerFold_inert (oks : List Bool) :
    ∀ s : GrabberState, s.exitRequested = true →
      (oks.foldl (fun t ok => writerStep ok t) s).written = s.written ∧
      (oks.foldl (fun t ok => writerStep ok t) s).pipeData = s.pipeData ∧
      (oks.foldl (fun t ok => writerStep ok t) s).exitRequested = true := by
  induction oks with
  | nil => intro s h; exact ⟨rfl, rfl, h⟩
  | cons ok rest ih =>
    intro s h
    cases hd : s.writerDone with
    | true =>
      simp only [List.foldl_cons, writerStep_done ok s hd]
      exact ih s h
    | false =>
      simp only [List.foldl_cons, writerStep_exit ok s hd h]
      exact ih { s with writerDone := true } h

/-- A failed `fwrite` (return value other than 1): the popped slice is
consumed, nothing is appended to the file, and `exitRequested` is set. -/
theorem writerStep_fail (s : GrabberState) (hdone : s.writerDone = false)
    (hexit : s.exitRequested = false) (hpipe : s.pipeData ≠ []) :
    writerStep false s
      = { s with pipeData := s.pipeData.drop WRITE_SLICE_SIZE, exitRequested := true } := by
  have hlen : s.pipeData.length ≠ 0 := by
    simpa [List.length_eq_zero] using hpipe
  have hpos : 0 < (s.pipeData.take WRITE_SLICE_SIZE).length := by
    simp only [List.length_take, WRITE_SLICE_SIZE]
    omega
  simp [writerStep, pipe_pop, WRITE_SLICE_SIZE, hdone, hexit, hlen, hpos]

/-- A call whose block arrives before the warm-up threshold (or with the
block empty) only advances `total_num_bytes_received`. -/
theorem callback_suppressed (hf : Bool) (s : GrabberState) (buf : List Nat)
    (h : s.total_num_bytes_received < NUM_FLUSH_BYTES) :
    (readCallback hf false s buf).1
      = { s with total_num_bytes_received := s.total_num_bytes_received + buf.length } := by
  have h2 : ¬ NUM_FLUSH_BYTES ≤ s.total_num_bytes_received := by omega
  by_cases hb : buf.length ≠ 0
  · simp [readCallback, hb, h2]
  · simp only [not_not] at hb
    simp [readCallback, hb]

/-- A call past warm-up with an open file and a nonempty block: the decode
loop runs and its output is pushed as one segment. -/
theorem callback_decoded (hp : Bool) (s : GrabberState) (buf : List Nat)
    (hT : NUM_FLUSH_BYTES ≤ s.total_num_bytes_received) (hb : buf.length ≠ 0) :
    (readCallback true hp s buf).1
      = (fun s1 => if hp then
            { s1 with dropoutsReported := s1.dropoutsReported ++ [s1.n_err] } else s1)
          { s with
              exitRequested := s.exitRequested || (decodeLoop s.total_bytes_saved 0 buf).2.2,
              reports := s.reports ++ (decodeLoop s.total_bytes_saved 0 buf).2.1,
              pipeData := s.pipeData ++ (decodeLoop s.total_bytes_saved 0 buf).1,
              pushedSegments := s.pushedSegments ++ [(decodeLoop s.total_bytes_saved 0 buf).1],
              total_bytes_saved := s.total_bytes_saved + buf.length,
              total_num_bytes_received := s.total_num_bytes_received + buf.length } := by
  cases hp <;> simp [readCallback, hb, hT]

/-! ### The claims -/

/-- Claim C1 (counterexample): the no-loss-on-shutdown property fails on
the code.  In the session `lossTrace` the decoded block `[1, 1]` is pushed
into the pipe before SIGINT arrives, yet the very next `file_writer`
iteration sees `exitRequested` at the top of its loop and returns with the
two bytes still in the pipe and nothing written to the file: data accepted
into the channel before shutdown is lost. -/
theorem no_loss_on_shutdown_cex :
    (runSession lossTrace).writerDone = true ∧
    (runSession lossTrace).written = [] ∧
    (runSession lossTrace).pipeData = [1, 1] := by
  have h1 : (readCallback true false initState (List.replicate 50000 1)).1
      = { initState with total_num_bytes_received :=
            initState.total_num_bytes_received + (List.replicate 50000 1).length } :=
    callback_suppressed true initState (List.replicate 50000 1) (by norm_num [initState, NUM_FLUSH_BYTES])
  rw [List.length_replicate] at h1
  simp only [runSession, lossTrace, List.foldl_cons, List.foldl_nil, step, h1]
  decide

/-- Claim C1 (amended): `file_writer` checks `exitRequested` before each
pop, so once the shutdown flag is set the next loop check terminates the
thread immediately, leaving whatever is still in the pipe unwritten: the
writer does not drain the channel on shutdown. -/
theorem shutdown_skips_drain (ok : Bool) (s : GrabberState)
    (hdone : s.writerDone = false) (hexit : s.exitRequested = true) :
    writerStep ok s = { s with writerDone := true } :=
  writerStep_exit ok s hdone hexit

/-- Witness for `shutdown_skips_drain` at a state holding one unwritten
byte. -/
theorem shutdown_skips_drain_witness :
    writerStep true { initState with exitRequested := true, pipeData := [5] }
      = { initState with exitRequested := true, pipeData := [5], writerDone := true } :=
  shutdown_skips_drain true { initState with exitRequested := true, pipeData := [5] } rfl rfl

/-- Claim C2 (confirmed): in every decoded block, the byte at index `i`
produces sample `2*i` equal to `table[(b >> 5) & 0x07]` and sample `2*i+1`
equal to `table[(b >> 2) & 0x07]`, where the table is literally
`[1, 3, 5, 7, -1, -3, -5, -7]`; so each 3-bit sign-magnitude code `c`
decodes to the literal value at index `c`. -/
theorem decode_uses_signmag_table (saved ci : Nat) (buf : List Nat) (i : Nat)
    (hi : i < buf.length) :
    (decodeLoop saved ci buf).1.get? (2 * i)
      = some (([1, 3, 5, 7, -1, -3, -5, -7] : List Int).getD ((buf.getD i 0 >>> 5) &&& 0x07) 0) ∧
    (decodeLoop saved ci buf).1.get? (2 * i + 1)
      = some (([1, 3, 5, 7, -1, -3, -5, -7] : List Int).getD ((buf.getD i 0 >>> 2) &&& 0x07) 0) := by
  simpa [convSample0, convSample1, mapping] using decodeLoop_get saved ci buf i hi

/-- Witness for `decode_uses_signmag_table` on the block `[0xE0]`: high
field `111` gives sample `-7`, low field `000` gives sample `1`. -/
theorem decode_uses_signmag_table_witness :
    (decodeLoop 0 0 [224]).1.get? 0 = some (-7) ∧
    (decodeLoop 0 0 [224]).1.get? 1 = some 1 := by
  have h := decode_uses_signmag_table 0 0 [224] 0 (by decide)
  exact ⟨by simpa using h.1, by simpa using h.2⟩

/-- Claim C3 (confirmed): past warm-up with an open file, a block of length
`L = 0` leaves the state unchanged (a no-op, not an error), and a block of
length `L ≠ 0` pushes exactly one segment, the decode loop's output, whose
length is exactly `2 * L`. -/
theorem block_length_invariant (hp : Bool) (s : GrabberState) (buf : List Nat)
    (hT : NUM_FLUSH_BYTES ≤ s.total_num_bytes_received) :
    (buf.length = 0 → (readCallback true false s buf).1 = s) ∧
    (buf.length ≠ 0 →
      (readCallback true hp s buf).1.pushedSegments
        = s.pushedSegments ++ [(decodeLoop s.total_bytes_saved 0 buf).1]) ∧
    (decodeLoop s.total_bytes_saved 0 buf).1.length = 2 * buf.length := by
  refine ⟨fun h0 => ?_, fun hb => ?_, decodeLoop_length s.total_bytes_saved 0 buf⟩
  · simp [readCallback, h0]
  · rw [callback_decoded hp s buf hT hb]
    cases hp <;> simp

/-- Witness for `block_length_invariant` on the block `[0x03]` in a
warmed-up state. -/
theorem block_length_invariant_witness :
    (([] : List Nat).length = 0 →
      (readCallback true false { initState with total_num_bytes_received := 50000 } []).1
        = { initState with total_num_bytes_received := 50000 }) ∧
    (([] : List Nat).length ≠ 0 →
      (readCallback true false { initState with total_num_bytes_received := 50000 } []).1.pushedSegments
        = ({ initState with total_num_bytes_received := 50000 } : GrabberState).pushedSegments
          ++ [(decodeLoop ({ initState with total_num_bytes_received := 50000 } : GrabberState).total_bytes_saved 0 []).1]) ∧
    (decodeLoop ({ initState with total_num_bytes_received := 50000 } : GrabberState).total_bytes_saved 0 []).1.length
      = 2 * ([] : List Nat).length :=
  block_length_invariant false { initState with total_num_bytes_received := 50000 } []
    (by norm_num [initState, NUM_FLUSH_BYTES])

/-- Claim C4 (counterexample): with `T = 50000`, bytes after the first `T`
do not always contribute two samples each: in `warmupTrace` the second
block begins at 49999 observed bytes, so the whole block is suppressed and
its second byte — global byte number 50001, i.e. byte `T+1` — contributes
nothing, although the counter does advance to 50001. -/
theorem warmup_byte_after_threshold_cex :
    (runSession warmupTrace).total_num_bytes_received = 50001 ∧
    (runSession warmupTrace).pushedSegments = [] ∧
    (runSession warmupTrace).pipeData = [] := by
  have h1 : (readCallback true false initState (List.replicate 49999 1)).1
      = { initState with total_num_bytes_received :=
            initState.total_num_bytes_received + (List.replicate 49999 1).length } :=
    callback_suppressed true initState (List.replicate 49999 1) (by norm_num [initState, NUM_FLUSH_BYTES])
  rw [List.length_replicate] at h1
  simp only [runSession, warmupTrace, List.foldl_cons, List.foldl_nil, step, h1]
  decide

/-- Claim C4 (amended): the warm-up gate works per block.  Every nonempty
block advances `total_num_bytes_received` by its length; a block delivered
while the count is still below `NUM_FLUSH_BYTES` pushes nothing (even past
byte `T` inside the block); a block delivered once the count has reached
`NUM_FLUSH_BYTES`, with a file open, pushes its full decoded segment. -/
theorem warmup_suppression_per_block (hf : Bool) (s : GrabberState) (buf : List Nat)
    (hb : buf.length ≠ 0) :
    (readCallback hf false s buf).1.total_num_bytes_received
        = s.total_num_bytes_received + buf.length ∧
    (s.total_num_bytes_received < NUM_FLUSH_BYTES →
      (readCallback hf false s buf).1.pushedSegments = s.pushedSegments ∧
      (readCallback hf false s buf).1.pipeData = s.pipeData) ∧
    (NUM_FLUSH_BYTES ≤ s.total_num_bytes_received → hf = true →
      (readCallback hf false s buf).1.pushedSegments
        = s.pushedSegments ++ [(decodeLoop s.total_bytes_saved 0 buf).1]) := by
  refine ⟨?_, fun hlt => ?_, fun hT hfile => ?_⟩
  · by_cases hT : NUM_FLUSH_BYTES ≤ s.total_num_bytes_received
    · cases hf
      · simp [readCallback, hb, hT]
      · rw [callback_decoded false s buf hT hb]
        simp
    · rw [callback_suppressed hf s buf (by omega)]
  · rw [callback_suppressed hf s buf hlt]
    exact ⟨rfl, rfl⟩
  · subst hfile
    rw [callback_decoded false s buf hT hb]
    simp

/-- Witness for `warmup_suppression_per_block` on the one-byte block
`[0x03]` from the initial state. -/
theorem warmup_suppression_per_block_witness :
    ((readCallback true false initState [3]).1.total_num_bytes_received
        = initState.total_num_bytes_received + [3].length ∧
    (initState.total_num_bytes_received < NUM_FLUSH_BYTES →
      (readCallback true false initState [3]).1.pushedSegments = initState.pushedSegments ∧
      (readCallback true false initState [3]).1.pipeData = initState.pipeData) ∧
    (NUM_FLUSH_BYTES ≤ initState.total_num_bytes_received → true = true →
      (readCallback true false initState [3]).1.pushedSegments
        = initState.pushedSegments ++ [(decodeLoop initState.total_bytes_saved 0 [3]).1])) :=
  warmup_suppression_per_block true initState [3] (by decide)

/-- Claim C5 (confirmed): `FPGA_FIFO_ERROR_CHECK` raises exactly on bytes
with least-significant bit 0, and a decoded block sets `exitRequested`
exactly when it contains such a byte: LSB 1 never raises the error, LSB 0
always does. -/
theorem fifo_error_detection (b saved ci : Nat) (buf : List Nat) :
    (FPGA_FIFO_ERROR_CHECK b = true ↔ b % 2 = 0) ∧
    ((decodeLoop saved ci buf).2.2 = true ↔ ∃ x ∈ buf, x % 2 = 0) := by
  constructor
  · simp [FPGA_FIFO_ERROR_CHECK, Nat.and_one_is_mod]
  · simp [decodeLoop_err, List.any_eq_true, FPGA_FIFO_ERROR_CHECK, Nat.and_one_is_mod]

/-- Claim C6 (confirmed): a decoded block containing an error byte
(LSB 0) at index `i` sets `exitRequested`, reports
`total_bytes_saved + i` as the sample count at the fault, and still pushes
the block's full decoded segment of length `2 * L` — decoding continues
past the faulting byte and nothing already decoded is discarded. -/
theorem error_in_block_continuation (hp : Bool) (s : GrabberState) (buf : List Nat) (i : Nat)
    (hT : NUM_FLUSH_BYTES ≤ s.total_num_bytes_received)
    (hi : i < buf.length)
    (he : FPGA_FIFO_ERROR_CHECK (buf.getD i 0) = true) :
    (readCallback true hp s buf).1.exitRequested = true ∧
    (s.total_bytes_saved + i) ∈ (readCallback true hp s buf).1.reports ∧
    (readCallback true hp s buf).1.pushedSegments
      = s.pushedSegments ++ [(decodeLoop s.total_bytes_saved 0 buf).1] ∧
    (decodeLoop s.total_bytes_saved 0 buf).1.length = 2 * buf.length := by
  have hb : buf.length ≠ 0 := by omega
  have herr : (decodeLoop s.total_bytes_saved 0 buf).2.2 = true := by
    rw [decodeLoop_err]
    rw [List.any_eq_true]
    exact ⟨buf.getD i 0, by rw [List.getD_eq_getElem buf 0 hi]; exact List.getElem_mem hi, he⟩
  have hrep : (s.total_bytes_saved + i) ∈ (decodeLoop s.total_bytes_saved 0 buf).2.1 := by
    have h := decodeLoop_report_mem s.total_bytes_saved 0 buf i hi he
    simpa using h
  rw [callback_decoded hp s buf hT hb]
  cases hp <;> simp [herr, hrep, decodeLoop_length]

/-- Witness for `error_in_block_continuation` on the block `[0x02]` (LSB 0)
in a warmed-up state. -/
theorem error_in_block_continuation_witness :
    ((readCallback true false { initState with total_num_bytes_received := 50000 } [2]).1.exitRequested = true ∧
    (({ initState with total_num_bytes_received := 50000 } : GrabberState).total_bytes_saved + 0)
      ∈ (readCallback true false { initState with total_num_bytes_received := 50000 } [2]).1.reports ∧
    (readCallback true false { initState with total_num_bytes_received := 50000 } [2]).1.pushedSegments
      = ({ initState with total_num_bytes_received := 50000 } : GrabberState).pushedSegments
        ++ [(decodeLoop ({ initState with total_num_bytes_received := 50000 } : GrabberState).total_bytes_saved 0 [2]).1] ∧
    (decodeLoop ({ initState with total_num_bytes_received := 50000 } : GrabberState).total_bytes_saved 0 [2]).1.length
      = 2 * ([2] : List Nat).length) :=
  error_in_block_continuation false { initState with total_num_bytes_received := 50000 } [2] 0
    (by norm_num [initState, NUM_FLUSH_BYTES]) (by decide) (by decide)

/-- Claim C7 (confirmed): the shutdown flag is monotone.  It starts false,
and once true it stays true across any further event — SIGINT, a
`readCallback` invocation, or a `file_writer` iteration — and hence across
any further event sequence; no operation ever stores false after
initialization. -/
theorem shutdown_flag_monotone (s : GrabberState) (e : GrabberEvent)
    (evs : List GrabberEvent) (h : s.exitRequested = true) :
    initState.exitRequested = false ∧
    (step s e).exitRequested = true ∧
    (evs.foldl step s).exitRequested = true :=
  ⟨rfl, step_exit_mono s e h, foldl_exit_mono evs s h⟩

/-- Witness for `shutdown_flag_monotone`: the flag set by SIGINT survives a
writer iteration and a further event sequence. -/
theorem shutdown_flag_monotone_witness :
    initState.exitRequested = false ∧
    (step { initState with exitRequested := true } (GrabberEvent.writer true)).exitRequested = true ∧
    ([GrabberEvent.sigint, GrabberEvent.writer true].foldl step
        { initState with exitRequested := true }).exitRequested = true :=
  shutdown_flag_monotone { initState with exitRequested := true }
    (GrabberEvent.writer true) [GrabberEvent.sigint, GrabberEvent.writer true] rfl

/-- Claim C8 (confirmed): when `fwrite` of a popped slice does not return
1, the writer sets `exitRequested` without appending anything to the file,
its next loop check terminates the thread, and no later writer iteration
ever writes again (the failed write is not retried). -/
theorem sink_fault_fatal (s : GrabberState) (ok2 : Bool) (oks : List Bool)
    (hdone : s.writerDone = false) (hexit : s.exitRequested = false)
    (hpipe : s.pipeData ≠ []) :
    (writerStep false s).exitRequested = true ∧
    (writerStep false s).written = s.written ∧
    (writerStep ok2 (writerStep false s)).writerDone = true ∧
    (oks.foldl (fun t ok => writerStep ok t) (writerStep false s)).written = s.written := by
  have hfail := writerStep_fail s hdone hexit hpipe
  have h1 : (writerStep false s).exitRequested = true := by rw [hfail]
  have h2 : (writerStep false s).writerDone = false := by rw [hfail]; exact hdone
  have h3 : (writerStep false s).written = s.written := by rw [hfail]
  refine ⟨h1, h3, ?_, ?_⟩
  · rw [writerStep_exit ok2 (writerStep false s) h2 h1]
  · exact ((writerFold_inert oks (writerStep false s) h1).1).trans h3

/-- Witness for `sink_fault_fatal` at a state holding two unwritten bytes,
followed by two more writer iterations. -/
theorem sink_fault_fatal_witness :
    ((writerStep false { initState with pipeData := [1, 2] }).exitRequested = true ∧
    (writerStep false { initState with pipeData := [1, 2] }).written
      = ({ initState with pipeData := [1, 2] } : GrabberState).written ∧
    (writerStep true (writerStep false { initState with pipeData := [1, 2] })).writerDone = true ∧
    ([true, true].foldl (fun t ok => writerStep ok t)
        (writerStep false { initState with pipeData := [1, 2] })).written
      = ({ initState with pipeData := [1, 2] } : GrabberState).written) :=
  sink_fault_fatal { initState with pipeData := [1, 2] } true [true, true]
    rfl rfl (by decide)

/-- Claim C9 (counterexample): with no output file, blocks are not "decoded
and discarded" — the decode loop is skipped entirely.  In the warmed-up
no-file state, the block `[0x00]` yields no `conv_buf` contents at all
(where decoding would yield `[1, 1]`), and its error byte (LSB 0, which the
decode loop would detect) leaves `exitRequested` false. -/
theorem stats_only_cex :
    (readCallback false false statsOnlyState [0]).2.1 = [] ∧
    (readCallback false false statsOnlyState [0]).1.exitRequested = false ∧
    (decodeLoop statsOnlyState.total_bytes_saved 0 [0]).1 = [1, 1] ∧
    FPGA_FIFO_ERROR_CHECK 0 = true := by
  decide

/-- Claim C9 (amended): with no output file the call performs no decoding
at all — it produces no samples and, apart from the byte counter (which
still advances), changes nothing on a call without a progress structure;
on a call that does carry one the progress report is still emitted
(`dropoutsReported` grows by the current `n_err`, src line 145's print
being independent of `outputFile`), so the statistics pipeline keeps
running — and more than one positional argument makes `main` call
`usage()`, exiting with code 1 before any device interaction. -/
theorem stats_only_no_decode (s : GrabberState) (buf : List Nat) (args : List String)
    (hargs : 2 ≤ args.length) :
    (readCallback false false s buf).1
        = { s with total_num_bytes_received := s.total_num_bytes_received + buf.length } ∧
    (readCallback false true s buf).1
        = { s with total_num_bytes_received := s.total_num_bytes_received + buf.length,
                   dropoutsReported := s.dropoutsReported ++ [s.n_err] } ∧
    (∀ hp : Bool, (readCallback false hp s buf).2.1 = []) ∧
    parsePositional args = Except.error 1 := by
  refine ⟨?_, ?_, fun hp => ?_, ?_⟩
  · by_cases hb : buf.length ≠ 0
    · by_cases hT : NUM_FLUSH_BYTES ≤ s.total_num_bytes_received
      · simp [readCallback, hb, hT]
      · simp [readCallback, hb, hT]
    · simp only [not_not] at hb
      simp [readCallback, hb]
  · by_cases hb : buf.length ≠ 0
    · by_cases hT : NUM_FLUSH_BYTES ≤ s.total_num_bytes_received
      · simp [readCallback, hb, hT]
      · simp [readCallback, hb, hT]
    · simp only [not_not] at hb
      simp [readCallback, hb]
  · by_cases hb : buf.length ≠ 0
    · by_cases hT : NUM_FLUSH_BYTES ≤ s.total_num_bytes_received
      · cases hp <;> simp [readCallback, hb, hT]
      · cases hp <;> simp [readCallback, hb, hT]
    · simp only [not_not] at hb
      cases hp <;> simp [readCallback, hb]
  · match args, hargs with
    | a :: b :: rest, _ => rfl

/-- Witness for `stats_only_no_decode` on the block `[0x02]` and the
argument list `["a", "b"]`, with the no-decode fact taken at both progress
settings. -/
theorem stats_only_no_decode_witness :
    ((readCallback false false initState [2]).1
        = { initState with total_num_bytes_received := initState.total_num_bytes_received + [2].length } ∧
    (readCallback false true initState [2]).1
        = { initState with total_num_bytes_received := initState.total_num_bytes_received + [2].length,
                           dropoutsReported := initState.dropoutsReported ++ [initState.n_err] } ∧
    (readCallback false false initState [2]).2.1 = [] ∧
    (readCallback false true initState [2]).2.1 = [] ∧
    parsePositional ["a", "b"] = Except.error 1) :=
  have h := stats_only_no_decode initState [2] ["a", "b"] (by decide)
  ⟨h.1, h.2.1, h.2.2.1 false, h.2.2.1 true, h.2.2.2⟩

/-- Claim C10 (confirmed): `n_err` is 0 in every reachable state — it is
initialized to 0 and no event ever changes it — so every dropout count the
progress report prints is 0, no matter how many error bytes were seen. -/
theorem dropouts_reported_zero (evs : List GrabberEvent) :
    (runSession evs).n_err = 0 ∧
    ∀ x ∈ (runSession evs).dropoutsReported, x = 0 := by
  suffices h : ∀ s : GrabberState, s.n_err = 0 → (∀ x ∈ s.dropoutsReported, x = 0) →
      (evs.foldl step s).n_err = 0 ∧ ∀ x ∈ (evs.foldl step s).dropoutsReported, x = 0 by
    exact h initState rfl (by simp [initState])
  induction evs with
  | nil => intro s h1 h2; exact ⟨h1, h2⟩
  | cons e rest ih =>
    intro s h1 h2
    refine ih (step s e) ?_ ?_
    · cases e with
      | sigint => exact h1
      | callback hf hp buf => rw [step, readCallback_nerr]; exact h1
      | writer ok => rw [step]; rw [(writerStep_nerr_dropouts ok s).1]; exact h1
    · cases e with
      | sigint => exact h2
      | callback hf hp buf =>
        intro x hx
        rw [step, readCallback_dropouts] at hx
        rcases List.mem_append.mp hx with hx1 | hx2
        · exact h2 x hx1
        · cases hp with
          | true => simp at hx2; rw [hx2, h1]
          | false => simp at hx2
      | writer ok =>
        intro x hx
        rw [step, (writerStep_nerr_dropouts ok s).2] at hx
        exact h2 x hx

end SampleGrabber
